import Mathlib

/-
Shallow embedding of the Lokatani IoT weighing backend
(src/app/services/service.py, src/app/services/iot_service.py,
src/app/routes.py, src/app/routes_iot.py, src/app/validators.py).

Firestore documents are modelled as association lists where the most
recent write shadows earlier entries; timestamps are abstract Nat ticks
supplied by the caller (datetime.utcnow()); float weights are modelled
as Int (the code performs no range or finiteness validation, so the
ordered-field structure is all the claims need); the YOLO classifier is
an opaque collaborator whose detections are passed in as data.
-/

namespace Lokatani

/-- Python str.startswith, on the character sequence of the string. -/
def pyStartsWith (s p : String) : Bool := p.data.isPrefixOf s.data

/-- One document of the weights subcollection
(iot_service.py, process_weight_from_device, lines 119-128). -/
structure WeightReading where
  weight : Int
  timestamp : Nat
  device_id : String
deriving DecidableEq

/-- A session document in either the vegetable_batches or the
rompes_batches collection.  Fields that the code stores only later
(completed_at, vegetable_type, confidence, image_url) are Options that
start out absent; the weights subcollection of a session document is
kept inline as a list. -/
structure Session where
  user_id : Option String
  session_type : String
  status : String
  created_at : Nat
  completed_at : Option Nat
  total_weight : Int
  vegetable_type : Option String
  confidence : Option Int
  image_url : Option String
  weights : List WeightReading
deriving DecidableEq

/-- A Firestore collection keyed by document id. -/
abbrev Collection := List (String × Session)

/-- Point read of a document (document(id).get()). -/
def Collection.getDoc (c : Collection) (id : String) : Option Session :=
  (c.find? (fun p => p.1 == id)).map Prod.snd

/-- Document write (set / update / Increment all land here once the new
document value has been computed); the new entry shadows older ones. -/
def Collection.setDoc (c : Collection) (id : String) (s : Session) : Collection :=
  (id, s) :: c

/-- The two session partitions: BATCH_COLLECTION = "vegetable_batches"
and "rompes_batches". -/
structure Store where
  vegetable_batches : Collection
  rompes_batches : Collection
deriving DecidableEq

def Store.empty : Store := ⟨[], []⟩

/-- The two storage partitions a session reference can resolve to. -/
inductive Partition
  | product
  | rompes
deriving DecidableEq

/-- The prefix-routing block repeated in process_weight_from_device
(iot_service.py lines 94-104), complete_weighing_session (service.py
lines 350-360) and get_weighing_session_detail (service.py lines
290-300): prod_ goes to the product collection, rompes_ to the rompes
collection, and an unprefixed legacy id is assumed to be product. -/
def routeSessionId (session_id : String) : Partition :=
  if pyStartsWith session_id "prod_" then .product
  else if pyStartsWith session_id "rompes_" then .rompes
  else .product

def Store.coll (st : Store) : Partition → Collection
  | .product => st.vegetable_batches
  | .rompes => st.rompes_batches

def Store.setColl (st : Store) : Partition → Collection → Store
  | .product, c => { st with vegetable_batches := c }
  | .rompes, c => { st with rompes_batches := c }

def partitionTypeName : Partition → String
  | .product => "product"
  | .rompes => "rompes"

/-- Result dictionary of initiate_weighing_session. -/
structure InitiateResult where
  status : String
  session_id : String
  session_type : String
  message : String
deriving DecidableEq

/-- service.py initiate_weighing_session (lines 179-218).  The function
reads only user_id and session_type from session_data; freshId stands
for str(uuid.uuid4()) and now for datetime.utcnow().  A session_type
other than product or rompes raises ValueError; there is no further
validation (in particular no sub-type discriminator is read or checked
for rompes).  The membership test followed by the product/rompes branch
is rendered as an if/elif/else with the same semantics. -/
def initiate_weighing_session (st : Store) (user_id : Option String)
    (session_type : Option String) (freshId : String) (now : Nat) :
    Except String (Store × InitiateResult) :=
  if session_type = some "product" then
    let sid := "prod_" ++ freshId
    let sess : Session :=
      { user_id := user_id, session_type := "product", status := "in_progress",
        created_at := now, completed_at := none, total_weight := 0,
        vegetable_type := none, confidence := none, image_url := none, weights := [] }
    .ok ({ st with vegetable_batches := st.vegetable_batches.setDoc sid sess },
      { status := "initiated", session_id := sid, session_type := "product",
        message := "Product weighing session started" })
  else if session_type = some "rompes" then
    let sid := "rompes_" ++ freshId
    let sess : Session :=
      { user_id := user_id, session_type := "rompes", status := "in_progress",
        created_at := now, completed_at := none, total_weight := 0,
        vegetable_type := none, confidence := none, image_url := none, weights := [] }
    .ok ({ st with rompes_batches := st.rompes_batches.setDoc sid sess },
      { status := "initiated", session_id := sid, session_type := "rompes",
        message := "Rompes weighing session started" })
  else
    .error "session_type must be either product or rompes"

/-- Result dictionary of process_weight_from_device. -/
structure IotWeightResult where
  status : String
  message : String
  session_id : Option String
  session_type : Option String
deriving DecidableEq

/-- iot_service.py process_weight_from_device (lines 80-146).  The
weight has already been through float(data.get('weight')) — the only
parse the code performs; no sign, range or session-status check exists.
A missing session_id yields the received/unassigned result; an unknown
id yields the Session-not-found result; otherwise, for a product-routed
session the reading is appended to the weights subcollection, and for
both partitions total_weight is incremented by the raw value. -/
def process_weight_from_device (st : Store) (device_id : String) (weight : Int)
    (session_id : Option String) (now : Nat) : Store × IotWeightResult :=
  match session_id with
  | none =>
    (st, { status := "received", message := "Weight received, no session assigned",
           session_id := none, session_type := none })
  | some sid =>
    let part := routeSessionId sid
    let coll := st.coll part
    match coll.getDoc sid with
    | none =>
      (st, { status := "error", message := "Session not found",
             session_id := none, session_type := none })
    | some sess =>
      let sess1 : Session :=
        match part with
        | .product =>
          { sess with weights :=
              sess.weights ++ [{ weight := weight, timestamp := now, device_id := device_id }] }
        | .rompes => sess
      let sess2 : Session := { sess1 with total_weight := sess1.total_weight + weight }
      (st.setColl part (coll.setDoc sid sess2),
       { status := "success", message := "Weight added to " ++ partitionTypeName part ++ " session",
         session_id := some sid, session_type := some (partitionTypeName part) })

/-- Result dictionary of complete_weighing_session; the fields come
from session_info.get(...) on the re-read document, so all are
Options where the underlying field can be absent. -/
structure CompleteResult where
  session_id : String
  session_type : String
  user_id : Option String
  status : Option String
  created_at : Option Nat
  completed_at : Option Nat
  vegetable_type : Option String
  total_weight : Option Int
  confidence : Option Int
  image_url : Option String
deriving DecidableEq

/-- service.py complete_weighing_session (lines 343-392).  A falsy
session_id (absent or empty) raises ValueError; the id is routed by
prefix; a missing document raises ValueError; otherwise the document is
unconditionally updated with status completed and completed_at now —
there is no check of the current status, so an already-completed
session is stamped again — and the re-read document is returned. -/
def complete_weighing_session (st : Store) (session_id : Option String) (now : Nat) :
    Except String (Store × CompleteResult) :=
  let sid? : Option String :=
    match session_id with
    | none => none
    | some s => if s = "" then none else some s
  match sid? with
  | none => .error "session_id is required."
  | some sid =>
    let part := routeSessionId sid
    let coll := st.coll part
    match coll.getDoc sid with
    | none => .error "Session with the given ID does not exist."
    | some sess =>
      let sess2 : Session := { sess with status := "completed", completed_at := some now }
      let st2 := st.setColl part (coll.setDoc sid sess2)
      .ok (st2,
        { session_id := sid, session_type := partitionTypeName part,
          user_id := sess2.user_id, status := some sess2.status,
          created_at := some sess2.created_at, completed_at := sess2.completed_at,
          vegetable_type := sess2.vegetable_type, total_weight := some sess2.total_weight,
          confidence := sess2.confidence, image_url := sess2.image_url })

/-- One detection produced by the YOLO model in identify_vegetable:
results.names[class_id] and round(float(det[4]), 2).  Confidence is
carried opaquely, so an Int stands in for the rounded float. -/
structure Detection where
  vegetable_type : String
  confidence : Int
deriving DecidableEq

/-- detections.sort(key=confidence, reverse=True) followed by
detections[0]: Python sort is stable, so the result is the earliest
detection with maximal confidence, which a left fold keeping the
current best under strict greater-than computes. -/
def bestDetection (d : Detection) (rest : List Detection) : Detection :=
  rest.foldl (fun b x => if x.confidence > b.confidence then x else b) d

/-- service.py delete_image (lines 95-104): the GCS blob delete raises
when the object is missing, otherwise it removes the object. -/
def delete_image (images : List String) (filename : String) : Except String (List String) :=
  if images.contains filename then .ok (images.erase filename)
  else .error "image not found"

/-- Outcome of identify_vegetable: the accepted best_detection dict,
the error dicts returned for rejection, or a propagating exception. -/
inductive IdentifyOutcome
  | detection (vegetable_type : String) (confidence : Int) (image_url : String) (timestamp : Nat)
  | rejected (message : String)
  | raised (message : String)
deriving DecidableEq

/-- service.py identify_vegetable (lines 106-168).  images is the GCS
bucket content, filename the name extracted from image_url, detections
what the model returned on the downloaded image.  With no detections
the image is deleted and an error dict returned; with a best detection
of kale or bayam merah the result is accepted and, when batch_id is
given, the product-collection document is updated (vegetable_type,
confidence, image_url overwritten unconditionally — the session status
and any earlier identification are not consulted; an update on a
missing document raises, and the except block deletes the image and
re-raises); any other best detection deletes the image and returns an
error dict. -/
def identify_vegetable (st : Store) (images : List String) (image_url filename : String)
    (detections : List Detection) (batch_id : Option String) (now : Nat) :
    Store × List String × IdentifyOutcome :=
  match detections with
  | [] =>
    match delete_image images filename with
    | .ok images2 => (st, images2, .rejected "No object detected")
    | .error m => (st, images, .raised m)
  | d :: rest =>
    let best := bestDetection d rest
    if best.vegetable_type = "kale" ∨ best.vegetable_type = "bayam merah" then
      match batch_id with
      | some bid =>
        match st.vegetable_batches.getDoc bid with
        | some sess =>
          let sess2 : Session :=
            { sess with
              vegetable_type := some best.vegetable_type,
              confidence := some best.confidence,
              image_url := some image_url }
          ({ st with vegetable_batches := st.vegetable_batches.setDoc bid sess2 }, images,
           .detection best.vegetable_type best.confidence image_url now)
        | none =>
          match delete_image images filename with
          | .ok images2 => (st, images2, .raised "No document to update")
          | .error _ => (st, images, .raised "No document to update")
      | none => (st, images, .detection best.vegetable_type best.confidence image_url now)
    else
      match delete_image images filename with
      | .ok images2 => (st, images2, .rejected "bukan kale atau bayam merah")
      | .error m => (st, images, .raised m)

/-- An HTTP response of the route layer: status code plus the JSON
body fields the handlers emit (status, message, and the details field
that only handle_api_exception adds). -/
structure Resp where
  code : Nat
  status : String
  message : String
  details : Option String
deriving DecidableEq

/-- validators.py handle_api_exception (lines 103-116): a normal
handler result passes through; an exception e becomes a 500 response
whose body carries the fixed message Internal server error together
with details: str(e). -/
def handle_api_exception (r : Except String Resp) : Resp :=
  match r with
  | .ok resp => resp
  | .error e =>
    { code := 500, status := "error", message := "Internal server error", details := some e }

/-- The principal the firebase_token_required middleware attaches to
the request: firebase_uid and role (firebase_middleware.py lines
44-50). -/
structure AuthUser where
  firebase_uid : String
  role : String
deriving DecidableEq

/-- routes.py get_batch_details (lines 209-242), the read_detail
endpoint, after authentication succeeded.  The handler looks up the
batch (the result only feeds a log line — the error branch does not
return), then evaluates the ownership test at line 234, which compares
the name batch_owner_id; that name is never assigned anywhere in the
function or module, so the comparison raises NameError on every
request, which handle_api_exception turns into the generic 500
response.  No request ever reaches the 403 or the 200 branch. -/
def get_batch_details_handler (u : AuthUser) (st : Store) (batch_id : String) :
    Except String Resp :=
  if batch_id = "" then
    .ok { code := 400, status := "error", message := "Batch ID is required", details := none }
  else if u.firebase_uid = "" then
    .ok { code := 500, status := "error",
          message := "Authentication failed or user ID not available", details := none }
  else
    let _ := st.coll (routeSessionId batch_id) |>.getDoc batch_id
    .error "name batch_owner_id is not defined"

def get_batch_details (u : AuthUser) (st : Store) (batch_id : String) : Resp :=
  handle_api_exception (get_batch_details_handler u st batch_id)

/-- auth_header.split('Bearer ')[1]: Python str.split removes every
occurrence of the separator; index 1 of the pieces (defaulting is never
hit because the caller has checked startswith('Bearer ')). -/
def bearerToken (h : String) : String :=
  (h.splitOn "Bearer ").getD 1 ""

/-- validators.py validate_api_key (lines 119-144): none means the
check passed and the wrapped handler runs; some r means the request is
answered with r (a 401) before any handler code runs. -/
def validate_api_key (expected_key : String) (auth_header : Option String) : Option Resp :=
  match auth_header with
  | none =>
    some { code := 401, status := "error", message := "Authentication required", details := none }
  | some h =>
    if ¬ pyStartsWith h "Bearer " then
      some { code := 401, status := "error", message := "Authentication required", details := none }
    else if bearerToken h ≠ expected_key then
      some { code := 401, status := "error", message := "Invalid authentication", details := none }
    else none

/-- The JSON body of POST /api/iot/weight; validate_json_request
requires device_id and weight, session_id is optional.  none for the
whole body models a request that is not JSON. -/
structure IotWeightBody where
  device_id : Option String
  weight : Option Int
  session_id : Option String
deriving DecidableEq

/-- validators.py validate_json_request for the weight endpoint
(required_fields = [device_id, weight]). -/
def validate_json_weight_body (body : Option IotWeightBody) : Option Resp :=
  match body with
  | none =>
    some { code := 415, status := "error",
           message := "Content-Type must be application/json", details := none }
  | some b =>
    if b.device_id = none ∨ b.weight = none then
      some { code := 400, status := "error", message := "Missing required fields", details := none }
    else none

/-- routes_iot.py handle_iot_weight (lines 18-30) with its decorator
stack: validate_api_key runs first, then validate_json_request, then
the handler calls process_weight_from_device.  No user principal is
consulted anywhere on this path. -/
def handle_iot_weight (expected_key : String) (auth_header : Option String)
    (body : Option IotWeightBody) (st : Store) (now : Nat) : Store × Resp :=
  match validate_api_key expected_key auth_header with
  | some r => (st, r)
  | none =>
    match validate_json_weight_body body with
    | some r => (st, r)
    | none =>
      match body with
      | some b =>
        match b.device_id, b.weight with
        | some dev, some w =>
          let (st2, res) := process_weight_from_device st dev w b.session_id now
          (st2, { code := 200, status := res.status, message := res.message, details := none })
        | _, _ =>
          (st, { code := 500, status := "error", message := "Internal server error", details := none })
      | none =>
        (st, { code := 500, status := "error", message := "Internal server error", details := none })

/-- Arbitrary JSON key/value content of a device status payload. -/
abbrev StatusFields := List (String × String)

/-- One document of the iot_devices collection: the merged status
payload plus the last_seen stamp. -/
structure DeviceDoc where
  fields : StatusFields
  last_seen : Option Nat
deriving DecidableEq

abbrev DeviceColl := List (String × DeviceDoc)

def DeviceColl.getDoc (c : DeviceColl) (id : String) : Option DeviceDoc :=
  (c.find? (fun p => p.1 == id)).map Prod.snd

def DeviceColl.setDoc (c : DeviceColl) (id : String) (d : DeviceDoc) : DeviceColl :=
  (id, d) :: c

/-- Firestore set(..., merge=True): keys of the new payload override,
other keys of the old document survive. -/
def mergeFields (old new : StatusFields) : StatusFields :=
  old.filter (fun p => ¬ new.any (fun q => q.1 == p.1)) ++ new

/-- iot_service.py update_device_status (lines 18-35): stamps last_seen
and merge-writes the payload onto the device document. -/
def update_device_status (devices : DeviceColl) (device_id : String)
    (status_data : StatusFields) (now : Nat) : DeviceColl × Resp :=
  let doc : DeviceDoc :=
    match devices.getDoc device_id with
    | some d => { fields := mergeFields d.fields status_data, last_seen := some now }
    | none => { fields := status_data, last_seen := some now }
  (devices.setDoc device_id doc,
   { code := 200, status := "success", message := "Device status updated", details := none })

/-- The JSON body of POST /api/iot/status; validate_json_request
requires device_id only. -/
structure DeviceStatusBody where
  device_id : Option String
  status_data : StatusFields
deriving DecidableEq

/-- routes_iot.py handle_device_status (lines 58-69).  Its decorator
stack is limiter, validate_json_request, handle_api_exception — there
is no validate_api_key stage, so the Authorization header is received
but never inspected, and no user principal is consulted either. -/
def handle_device_status (auth_header : Option String) (body : Option DeviceStatusBody)
    (devices : DeviceColl) (now : Nat) : DeviceColl × Resp :=
  let _ := auth_header
  match body with
  | none =>
    (devices, { code := 415, status := "error",
                message := "Content-Type must be application/json", details := none })
  | some b =>
    match b.device_id with
    | none =>
      (devices, { code := 400, status := "error",
                  message := "Missing required fields", details := none })
    | some dev => update_device_status devices dev b.status_data now

/-- The session-engine operations a store can undergo, for stating
invariants over arbitrary operation sequences. -/
inductive Op
  | initiate (user_id : Option String) (session_type : Option String)
      (freshId : String) (now : Nat)
  | deviceWeight (device_id : String) (weight : Int) (session_id : Option String) (now : Nat)
  | complete (session_id : Option String) (now : Nat)

/-- Applies one operation to the store; a raising operation leaves the
store unchanged (the exception propagates before any write). -/
def applyOp (st : Store) : Op → Store
  | .initiate u t f n =>
    match initiate_weighing_session st u t f n with
    | .ok (st2, _) => st2
    | .error _ => st
  | .deviceWeight d w s n => (process_weight_from_device st d w s n).1
  | .complete s n =>
    match complete_weighing_session st s n with
    | .ok (st2, _) => st2
    | .error _ => st

def applyOps (st : Store) (ops : List Op) : Store := ops.foldl applyOp st

/-- Sum of the weight readings of one session document. -/
def sessionWeightsSum (s : Session) : Int := (s.weights.map WeightReading.weight).sum

/-- The aggregation invariant of the claim set: every product-partition
document has total_weight equal to the sum of its recorded readings,
and no rompes-partition document ever holds readings. -/
def StoreInv (st : Store) : Prop :=
  (∀ id s, st.vegetable_batches.getDoc id = some s → s.total_weight = sessionWeightsSum s) ∧
  (∀ id s, st.rompes_batches.getDoc id = some s → s.weights = [])

/-- Projection of the completed_at field out of a completion result. -/
def completionStamp (r : Except String (Store × CompleteResult)) : Option Nat :=
  match r with
  | .ok (_, res) => res.completed_at
  | .error _ => none

/-- A product session that has already been completed (completed_at
stamped at tick 1). -/
def completedSession : Session :=
  { user_id := some "u1", session_type := "product", status := "completed",
    created_at := 0, completed_at := some 1, total_weight := 245,
    vegetable_type := some "kale", confidence := some 92, image_url := some "img1",
    weights := [{ weight := 245, timestamp := 0, device_id := "dev0" }] }

/-- A freshly initiated product session. -/
def freshProductSession : Session :=
  { user_id := some "u1", session_type := "product", status := "in_progress",
    created_at := 0, completed_at := none, total_weight := 0,
    vegetable_type := none, confidence := none, image_url := none, weights := [] }

/-- A freshly initiated rompes session. -/
def freshRompesSession : Session :=
  { user_id := some "u1", session_type := "rompes", status := "in_progress",
    created_at := 0, completed_at := none, total_weight := 0,
    vegetable_type := none, confidence := none, image_url := none, weights := [] }

theorem Collection.getDoc_setDoc_self (c : Collection) (id : String) (s : Session) :
    (c.setDoc id s).getDoc id = some s := by
  simp [Collection.getDoc, Collection.setDoc, List.find?]

theorem Collection.getDoc_setDoc_ne (c : Collection) (id id2 : String) (s : Session)
    (h : id2 ≠ id) : (c.setDoc id s).getDoc id2 = c.getDoc id2 := by
  have hb : (id == id2) = false := by
    simp only [beq_eq_false_iff_ne, ne_eq]
    exact fun he => h he.symm
  simp [Collection.getDoc, Collection.setDoc, List.find?, hb]

/-- A string starting with rompes_ cannot start with prod_. -/
theorem startsWith_rompes_not_prod (s : String) (h : pyStartsWith s "rompes_" = true) :
    pyStartsWith s "prod_" = false := by
  unfold pyStartsWith at h ⊢
  rw [List.isPrefixOf_iff_prefix] at h
  by_contra hc
  rw [Bool.not_eq_false, List.isPrefixOf_iff_prefix] at hc
  obtain ⟨t1, ht1⟩ := h
  obtain ⟨t2, ht2⟩ := hc
  rw [← ht1] at ht2
  simp [String.data] at ht2

theorem routeSessionId_rompes (s : String) (h : pyStartsWith s "rompes_" = true) :
    routeSessionId s = .rompes := by
  unfold routeSessionId
  simp [startsWith_rompes_not_prod s h, h]

theorem routeSessionId_prod (s : String) (h : pyStartsWith s "prod_" = true) :
    routeSessionId s = .product := by
  unfold routeSessionId
  simp [h]

theorem routeSessionId_legacy (s : String) (h1 : pyStartsWith s "prod_" = false)
    (h2 : pyStartsWith s "rompes_" = false) : routeSessionId s = .product := by
  unfold routeSessionId
  simp [h1, h2]

/-- Evaluation lemma for complete_weighing_session on an existing
session: the update is unconditional, so it fires whatever the current
status and completed_at are. -/
theorem complete_weighing_session_eq (st : Store) (sid : String) (sess : Session) (now : Nat)
    (hne : sid ≠ "") (hget : (st.coll (routeSessionId sid)).getDoc sid = some sess) :
    complete_weighing_session st (some sid) now =
      .ok (st.setColl (routeSessionId sid)
            ((st.coll (routeSessionId sid)).setDoc sid
              { sess with status := "completed", completed_at := some now }),
        { session_id := sid, session_type := partitionTypeName (routeSessionId sid),
          user_id := sess.user_id, status := some "completed",
          created_at := some sess.created_at, completed_at := some now,
          vegetable_type := sess.vegetable_type, total_weight := some sess.total_weight,
          confidence := sess.confidence, image_url := sess.image_url }) := by
  unfold complete_weighing_session
  simp only [hne, if_false, hget]

/-- C1 counterexample: a product session completed at tick 1 is
completed again at tick 2, and the returned record carries
completed_at = 2, not the original stamp 1 — complete_weighing_session
re-stamps completed_at on every call, so the second call is not a
no-op returning the already-completed record. -/
theorem c1_complete_restamps_counterexample :
    (⟨[("prod_abc", completedSession)], []⟩ : Store).vegetable_batches.getDoc "prod_abc"
        = some completedSession ∧
    completedSession.status = "completed" ∧
    completedSession.completed_at = some 1 ∧
    completionStamp
      (complete_weighing_session (⟨[("prod_abc", completedSession)], []⟩ : Store)
        (some "prod_abc") 2) = some 2 ∧
    (some 2 : Option Nat) ≠ some 1 := by
  refine ⟨by decide, by decide, by decide, ?_, by decide⟩
  decide

/-- C1 (amended): calling complete on a session that already has
status completed succeeds and returns the completed record with
user_id, created_at, total_weight and the identification fields
unchanged, but status and completed_at are written again: the returned
and stored completed_at is the timestamp of the present call, not the
one of the first completion. -/
theorem c1_complete_on_completed_session (st : Store) (sid : String) (sess : Session)
    (now : Nat) (hne : sid ≠ "")
    (hget : (st.coll (routeSessionId sid)).getDoc sid = some sess)
    (hdone : sess.status = "completed") :
    complete_weighing_session st (some sid) now =
      .ok (st.setColl (routeSessionId sid)
            ((st.coll (routeSessionId sid)).setDoc sid
              { sess with status := "completed", completed_at := some now }),
        { session_id := sid, session_type := partitionTypeName (routeSessionId sid),
          user_id := sess.user_id, status := some "completed",
          created_at := some sess.created_at, completed_at := some now,
          vegetable_type := sess.vegetable_type, total_weight := some sess.total_weight,
          confidence := sess.confidence, image_url := sess.image_url }) :=
  complete_weighing_session_eq st sid sess now hne hget

/-- C1 witness: the amended theorem applied to the concrete completed
session at tick 7. -/
theorem c1_complete_on_completed_session_witness :
    complete_weighing_session (⟨[("prod_abc", completedSession)], []⟩ : Store)
        (some "prod_abc") 7 =
      .ok ((⟨[("prod_abc", completedSession)], []⟩ : Store).setColl (routeSessionId "prod_abc")
            (((⟨[("prod_abc", completedSession)], []⟩ : Store).coll
                (routeSessionId "prod_abc")).setDoc "prod_abc"
              { completedSession with status := "completed", completed_at := some 7 }),
        { session_id := "prod_abc", session_type := partitionTypeName (routeSessionId "prod_abc"),
          user_id := completedSession.user_id, status := some "completed",
          created_at := some completedSession.created_at, completed_at := some 7,
          vegetable_type := completedSession.vegetable_type,
          total_weight := some completedSession.total_weight,
          confidence := completedSession.confidence,
          image_url := completedSession.image_url }) :=
  c1_complete_on_completed_session (⟨[("prod_abc", completedSession)], []⟩ : Store)
    "prod_abc" completedSession 7 (by decide) (by decide) (by decide)

/-- C2 counterexample: on a session with status completed, a device
weight of 10 is answered with status success and the stored
total_weight moves from 245 to 255 — the write neither fails with an
InvalidState error nor leaves the session unchanged. -/
theorem c2_completed_write_succeeds_counterexample :
    (⟨[("prod_abc", completedSession)], []⟩ : Store).vegetable_batches.getDoc "prod_abc"
        = some completedSession ∧
    completedSession.status = "completed" ∧
    completedSession.total_weight = 245 ∧
    (process_weight_from_device (⟨[("prod_abc", completedSession)], []⟩ : Store)
        "dev1" 10 (some "prod_abc") 5).2.status = "success" ∧
    ((process_weight_from_device (⟨[("prod_abc", completedSession)], []⟩ : Store)
        "dev1" 10 (some "prod_abc") 5).1.vegetable_batches.getDoc "prod_abc").map
      Session.total_weight = some 255 ∧
    (255 : Int) ≠ 245 := by
  refine ⟨by decide, by decide, by decide, ?_, ?_, by decide⟩ <;> decide

/-- C2 (amended): neither process_weight_from_device nor
identify_vegetable consults the session status: on a session whose
status is completed, a device weight is answered with success, the
reading is appended and total_weight is incremented, and a recognized
identification overwrites vegetable_type, confidence and image_url —
the writes silently succeed instead of failing with an InvalidState
error. -/
theorem c2_no_state_guard_on_writes (st : Store) (sid : String) (sess : Session)
    (dev : String) (w : Int) (now : Nat) (imgs : List String) (url fn : String)
    (d : Detection) (hroute : routeSessionId sid = .product)
    (hget : st.vegetable_batches.getDoc sid = some sess)
    (hdone : sess.status = "completed") :
    (process_weight_from_device st dev w (some sid) now =
      ({ st with
          vegetable_batches := st.vegetable_batches.setDoc sid
            { sess with
              weights := sess.weights ++ [{ weight := w, timestamp := now, device_id := dev }],
              total_weight := sess.total_weight + w } },
       { status := "success", message := "Weight added to product session",
         session_id := some sid, session_type := some "product" })) ∧
    (d.vegetable_type = "kale" →
      identify_vegetable st imgs url fn [d] (some sid) now =
        ({ st with
            vegetable_batches := st.vegetable_batches.setDoc sid
              { sess with
                vegetable_type := some d.vegetable_type,
                confidence := some d.confidence,
                image_url := some url } },
         imgs, .detection d.vegetable_type d.confidence url now)) := by
  constructor
  · unfold process_weight_from_device
    simp only [hroute, Store.coll, hget, Store.setColl]
    rfl
  · intro hkale
    unfold identify_vegetable bestDetection
    simp only [List.foldl, hkale, hget]
    simp

/-- C2 witness: the amended theorem at the concrete completed session,
with a device weight of 10 and a kale detection of confidence 88. -/
theorem c2_no_state_guard_on_writes_witness :
    (process_weight_from_device (⟨[("prod_abc", completedSession)], []⟩ : Store)
        "dev1" 10 (some "prod_abc") 5 =
      ({ (⟨[("prod_abc", completedSession)], []⟩ : Store) with
          vegetable_batches :=
            (⟨[("prod_abc", completedSession)], []⟩ : Store).vegetable_batches.setDoc "prod_abc"
              { completedSession with
                weights := completedSession.weights ++
                  [{ weight := 10, timestamp := 5, device_id := "dev1" }],
                total_weight := completedSession.total_weight + 10 } },
       { status := "success", message := "Weight added to product session",
         session_id := some "prod_abc", session_type := some "product" })) ∧
    ((Detection.mk "kale" 88).vegetable_type = "kale" →
      identify_vegetable (⟨[("prod_abc", completedSession)], []⟩ : Store)
          ["img2"] "img2" "img2" [Detection.mk "kale" 88] (some "prod_abc") 5 =
        ({ (⟨[("prod_abc", completedSession)], []⟩ : Store) with
            vegetable_batches :=
              (⟨[("prod_abc", completedSession)], []⟩ : Store).vegetable_batches.setDoc "prod_abc"
                { completedSession with
                  vegetable_type := some (Detection.mk "kale" 88).vegetable_type,
                  confidence := some (Detection.mk "kale" 88).confidence,
                  image_url := some "img2" } },
         ["img2"], .detection (Detection.mk "kale" 88).vegetable_type
           (Detection.mk "kale" 88).confidence "img2" 5)) :=
  c2_no_state_guard_on_writes (⟨[("prod_abc", completedSession)], []⟩ : Store)
    "prod_abc" completedSession "dev1" 10 5 ["img2"] "img2" "img2"
    (Detection.mk "kale" 88) (by decide) (by decide) (by decide)

/-- C5 counterexample: a device weight of -5 against a fresh
in-progress product session is answered with status success and the
stored total_weight becomes -5 — no InvalidArgument failure and no
protection against mutation for a negative value. -/
theorem c5_negative_weight_counterexample :
    (⟨[("prod_abc", freshProductSession)], []⟩ : Store).vegetable_batches.getDoc "prod_abc"
        = some freshProductSession ∧
    freshProductSession.total_weight = 0 ∧
    (process_weight_from_device (⟨[("prod_abc", freshProductSession)], []⟩ : Store)
        "dev1" (-5) (some "prod_abc") 3).2.status = "success" ∧
    ((process_weight_from_device (⟨[("prod_abc", freshProductSession)], []⟩ : Store)
        "dev1" (-5) (some "prod_abc") 3).1.vegetable_batches.getDoc "prod_abc").map
      Session.total_weight = some (-5) ∧
    ((-5 : Int) < 0) := by
  refine ⟨by decide, by decide, ?_, ?_, by decide⟩ <;> decide

/-- C5 (amended): process_weight_from_device performs no sign or range
validation on the parsed value — a negative weight is accepted exactly
like a positive one: the call reports success, the reading is appended,
and total_weight is incremented by the raw value, strictly decreasing
the accumulator.  (Non-finite floats are equally unchecked in the
source: float(data.get('weight')) is the only parse and accepts nan and
inf strings.) -/
theorem c5_no_weight_validation (st : Store) (sid : String) (sess : Session)
    (dev : String) (w : Int) (now : Nat) (hroute : routeSessionId sid = .product)
    (hget : st.vegetable_batches.getDoc sid = some sess) (hneg : w < 0) :
    (process_weight_from_device st dev w (some sid) now).2.status = "success" ∧
    (process_weight_from_device st dev w (some sid) now).1.vegetable_batches.getDoc sid =
      some { sess with
             weights := sess.weights ++ [{ weight := w, timestamp := now, device_id := dev }],
             total_weight := sess.total_weight + w } ∧
    sess.total_weight + w < sess.total_weight := by
  refine ⟨?_, ?_, by linarith⟩
  · unfold process_weight_from_device
    simp only [hroute, Store.coll, hget, Store.setColl]
  · unfold process_weight_from_device
    simp only [hroute, Store.coll, hget, Store.setColl]
    simp [Collection.getDoc_setDoc_self]

/-- C5 witness: the amended theorem at the fresh product session with
weight -5. -/
theorem c5_no_weight_validation_witness :
    (process_weight_from_device (⟨[("prod_abc", freshProductSession)], []⟩ : Store)
        "dev1" (-5) (some "prod_abc") 3).2.status = "success" ∧
    (process_weight_from_device (⟨[("prod_abc", freshProductSession)], []⟩ : Store)
        "dev1" (-5) (some "prod_abc") 3).1.vegetable_batches.getDoc "prod_abc" =
      some { freshProductSession with
             weights := freshProductSession.weights ++
               [{ weight := -5, timestamp := 3, device_id := "dev1" }],
             total_weight := freshProductSession.total_weight + (-5) } ∧
    freshProductSession.total_weight + (-5) < freshProductSession.total_weight :=
  c5_no_weight_validation (⟨[("prod_abc", freshProductSession)], []⟩ : Store)
    "prod_abc" freshProductSession "dev1" (-5) 3 (by decide) (by decide) (by decide)

/-- Appending one reading adds its weight to the reading sum. -/
theorem sessionWeightsSum_append (s : Session) (r : WeightReading) :
    sessionWeightsSum { s with weights := s.weights ++ [r] } =
      sessionWeightsSum s + r.weight := by
  simp [sessionWeightsSum]

/-- Reading any id after a document write either hits the written
document or passes through to the previous collection. -/
theorem Collection.getDoc_setDoc_cases (c : Collection) (sid id : String) (v s : Session)
    (h : (c.setDoc sid v).getDoc id = some s) :
    (id = sid ∧ s = v) ∨ (id ≠ sid ∧ c.getDoc id = some s) := by
  by_cases hid : id = sid
  · subst hid
    rw [Collection.getDoc_setDoc_self] at h
    exact Or.inl ⟨rfl, (Option.some_inj.mp h).symm⟩
  · refine Or.inr ⟨hid, ?_⟩
    rwa [Collection.getDoc_setDoc_ne c sid id v hid] at h

/-- The empty store satisfies the aggregation invariant. -/
theorem storeInv_empty : StoreInv Store.empty := by
  constructor <;> intro id s hs <;> simp [Store.empty, Collection.getDoc] at hs

/-- Every session-engine operation preserves the aggregation
invariant: initiate creates documents with total_weight 0 and no
readings, a device weight adds the same value to the reading list and
the accumulator of a product document (and touches no reading list of
a rompes document), and complete only rewrites status and
completed_at. -/
theorem storeInv_preserved (st : Store) (op : Op) (h : StoreInv st) :
    StoreInv (applyOp st op) := by
  obtain ⟨hp, hr⟩ := h
  cases op with
  | initiate u t f n =>
    unfold applyOp initiate_weighing_session
    by_cases ht1 : t = some "product"
    · simp only [ht1, if_pos]
      refine ⟨?_, hr⟩
      intro id s hs
      rcases Collection.getDoc_setDoc_cases _ _ _ _ _ hs with ⟨_, rfl⟩ | ⟨_, hgd⟩
      · simp [sessionWeightsSum]
      · exact hp id s hgd
    · by_cases ht2 : t = some "rompes"
      · simp only [ht1, ht2, if_neg, if_pos, if_false, if_true]
        refine ⟨hp, ?_⟩
        intro id s hs
        rcases Collection.getDoc_setDoc_cases _ _ _ _ _ hs with ⟨_, rfl⟩ | ⟨_, hgd⟩
        · rfl
        · exact hr id s hgd
      · simp only [ht1, ht2, if_false]
        exact ⟨hp, hr⟩
  | deviceWeight dev w sid? n =>
    cases sid? with
    | none =>
      unfold applyOp process_weight_from_device
      exact ⟨hp, hr⟩
    | some sid =>
      unfold applyOp process_weight_from_device
      cases hpart : routeSessionId sid with
      | product =>
        simp only [hpart, Store.coll]
        cases hget : st.vegetable_batches.getDoc sid with
        | none => exact ⟨hp, hr⟩
        | some sess =>
          simp only [Store.setColl]
          refine ⟨?_, hr⟩
          intro id s hs
          rcases Collection.getDoc_setDoc_cases _ _ _ _ _ hs with ⟨_, rfl⟩ | ⟨_, hgd⟩
          · have hbase := hp sid sess hget
            simp [sessionWeightsSum] at hbase ⊢
            omega
          · exact hp id s hgd
      | rompes =>
        simp only [hpart, Store.coll]
        cases hget : st.rompes_batches.getDoc sid with
        | none => exact ⟨hp, hr⟩
        | some sess =>
          simp only [Store.setColl]
          refine ⟨hp, ?_⟩
          intro id s hs
          rcases Collection.getDoc_setDoc_cases _ _ _ _ _ hs with ⟨_, rfl⟩ | ⟨_, hgd⟩
          · exact hr sid sess hget
          · exact hr id s hgd
  | complete sid? n =>
    cases sid? with
    | none =>
      unfold applyOp complete_weighing_session
      exact ⟨hp, hr⟩
    | some sid =>
      unfold applyOp complete_weighing_session
      by_cases hemp : sid = ""
      · simp only [hemp, if_pos]
        exact ⟨hp, hr⟩
      · simp only [hemp, if_neg, if_false]
        cases hpart : routeSessionId sid with
        | product =>
          simp only [hpart, Store.coll]
          cases hget : st.vegetable_batches.getDoc sid with
          | none => exact ⟨hp, hr⟩
          | some sess =>
            simp only [Store.setColl]
            refine ⟨?_, hr⟩
            intro id s hs
            rcases Collection.getDoc_setDoc_cases _ _ _ _ _ hs with ⟨_, rfl⟩ | ⟨_, hgd⟩
            · exact hp sid sess hget
            · exact hp id s hgd
        | rompes =>
          simp only [hpart, Store.coll]
          cases hget : st.rompes_batches.getDoc sid with
          | none => exact ⟨hp, hr⟩
          | some sess =>
            simp only [Store.setColl]
            refine ⟨hp, ?_⟩
            intro id s hs
            rcases Collection.getDoc_setDoc_cases _ _ _ _ _ hs with ⟨_, rfl⟩ | ⟨_, hgd⟩
            · exact hr sid sess hget
            · exact hr id s hgd

/-- C3 counterexample: a rompes session is created with total_weight 0
(not with a declared weight), and two subsequent device weights are
both answered with success and both move its total_weight (0 to 10 to
30) — for rompes-type sessions total_weight is not set only once at
creation of the weighing record; it is accumulated by increments
exactly like a product session. -/
theorem c3_rompes_total_weight_counterexample :
    freshRompesSession.total_weight = 0 ∧
    (process_weight_from_device (⟨[], [("rompes_r1", freshRompesSession)]⟩ : Store)
        "dev1" 10 (some "rompes_r1") 1).2.status = "success" ∧
    ((process_weight_from_device (⟨[], [("rompes_r1", freshRompesSession)]⟩ : Store)
        "dev1" 10 (some "rompes_r1") 1).1.rompes_batches.getDoc "rompes_r1").map
      Session.total_weight = some 10 ∧
    (process_weight_from_device
        (process_weight_from_device (⟨[], [("rompes_r1", freshRompesSession)]⟩ : Store)
          "dev1" 10 (some "rompes_r1") 1).1
        "dev1" 20 (some "rompes_r1") 2).2.status = "success" ∧
    ((process_weight_from_device
        (process_weight_from_device (⟨[], [("rompes_r1", freshRompesSession)]⟩ : Store)
          "dev1" 10 (some "rompes_r1") 1).1
        "dev1" 20 (some "rompes_r1") 2).1.rompes_batches.getDoc "rompes_r1").map
      Session.total_weight = some 30 ∧
    (10 : Int) ≠ 0 ∧ (30 : Int) ≠ 10 := by
  refine ⟨by decide, ?_, ?_, ?_, ?_, by decide, by decide⟩ <;> decide

/-- C3 (amended): starting from the empty store, after any sequence of
initiate, device-weight and complete operations, every
product-partition session has total_weight equal to the sum of its
recorded weight readings, and no rompes-partition session ever holds a
reading subcollection entry; however (see the counterexample) a rompes
session's total_weight is not set once from a declared weight at
creation — it starts at 0 and is incremented by each device weight
routed to it. -/
theorem c3_total_weight_invariant (ops : List Op) : StoreInv (applyOps Store.empty ops) := by
  suffices h : ∀ (st : Store), StoreInv st → StoreInv (applyOps st ops) from
    h Store.empty storeInv_empty
  induction ops with
  | nil => exact fun st hst => hst
  | cons op rest ih =>
    intro st hst
    exact ih (applyOp st op) (storeInv_preserved st op hst)

/-- C4 (confirmed): for every store — in particular one holding
sessions with colliding suffixes in both partitions — a rompes_-
prefixed reference is routed to the rompes partition and the product
partition is left untouched by the weight call; a prod_-prefixed
reference is routed to the product partition and the rompes partition
is left untouched; a reference with neither recognized prefix is
treated as legacy, routed to the product partition, and likewise
leaves the rompes partition untouched. -/
theorem c4_prefix_routing (st : Store) (dev : String) (w : Int) (sid : String) (now : Nat) :
    (pyStartsWith sid "rompes_" = true →
      routeSessionId sid = Partition.rompes ∧
      (process_weight_from_device st dev w (some sid) now).1.vegetable_batches =
        st.vegetable_batches) ∧
    (pyStartsWith sid "prod_" = true →
      routeSessionId sid = Partition.product ∧
      (process_weight_from_device st dev w (some sid) now).1.rompes_batches =
        st.rompes_batches) ∧
    (pyStartsWith sid "prod_" = false → pyStartsWith sid "rompes_" = false →
      routeSessionId sid = Partition.product ∧
      (process_weight_from_device st dev w (some sid) now).1.rompes_batches =
        st.rompes_batches) := by
  refine ⟨?_, ?_, ?_⟩
  · intro h
    have hroute := routeSessionId_rompes sid h
    refine ⟨hroute, ?_⟩
    unfold process_weight_from_device
    simp only [hroute, Store.coll]
    cases hget : st.rompes_batches.getDoc sid with
    | none => simp only [hget]
    | some sess => simp only [hget, Store.setColl]
  · intro h
    have hroute := routeSessionId_prod sid h
    refine ⟨hroute, ?_⟩
    unfold process_weight_from_device
    simp only [hroute, Store.coll]
    cases hget : st.vegetable_batches.getDoc sid with
    | none => simp only [hget]
    | some sess => simp only [hget, Store.setColl]
  · intro h1 h2
    have hroute := routeSessionId_legacy sid h1 h2
    refine ⟨hroute, ?_⟩
    unfold process_weight_from_device
    simp only [hroute, Store.coll]
    cases hget : st.vegetable_batches.getDoc sid with
    | none => simp only [hget]
    | some sess => simp only [hget, Store.setColl]

/-- C4 witness: with colliding suffixes prod_s1 and rompes_s1 present
in their partitions, a weight of 7 sent to rompes_s1 leaves the
product partition exactly as it was while the rompes record absorbs
the weight. -/
theorem c4_prefix_routing_witness :
    pyStartsWith "rompes_s1" "rompes_" = true ∧
    (process_weight_from_device
        (⟨[("prod_s1", freshProductSession)], [("rompes_s1", freshRompesSession)]⟩ : Store)
        "dev1" 7 (some "rompes_s1") 1).1.vegetable_batches =
      (⟨[("prod_s1", freshProductSession)], [("rompes_s1", freshRompesSession)]⟩ :
        Store).vegetable_batches ∧
    ((process_weight_from_device
        (⟨[("prod_s1", freshProductSession)], [("rompes_s1", freshRompesSession)]⟩ : Store)
        "dev1" 7 (some "rompes_s1") 1).1.rompes_batches.getDoc "rompes_s1").map
      Session.total_weight = some 7 :=
  ⟨by decide,
   ((c4_prefix_routing
      (⟨[("prod_s1", freshProductSession)], [("rompes_s1", freshRompesSession)]⟩ : Store)
      "dev1" 7 "rompes_s1" 1).1 (by decide)).2,
   by decide⟩

/-- C6 (code bug): the read_detail endpoint can never perform its
ownership check: for every authenticated principal — owner and admin
included — and every store, get_batch_details returns the generic 500
response produced from the NameError raised at routes.py line 234
(batch_owner_id is never assigned), and in particular never returns
200 and never returns 403.  The claimed owner-or-admin success is
unreachable. -/
theorem c6_read_detail_always_crashes (u : AuthUser) (st : Store) (bid : String)
    (hbid : bid ≠ "") (huid : u.firebase_uid ≠ "") :
    get_batch_details u st bid =
      { code := 500, status := "error", message := "Internal server error",
        details := some "name batch_owner_id is not defined" } ∧
    (get_batch_details u st bid).code ≠ 200 ∧
    (get_batch_details u st bid).code ≠ 403 := by
  unfold get_batch_details get_batch_details_handler handle_api_exception
  simp [hbid, huid]

/-- C6 witness: the owner of the stored batch (role user) asks for
their own batch and still receives the 500 crash response. -/
theorem c6_read_detail_always_crashes_witness :
    get_batch_details (AuthUser.mk "u1" "user")
        (⟨[("prod_abc", completedSession)], []⟩ : Store) "prod_abc" =
      { code := 500, status := "error", message := "Internal server error",
        details := some "name batch_owner_id is not defined" } ∧
    (get_batch_details (AuthUser.mk "u1" "user")
        (⟨[("prod_abc", completedSession)], []⟩ : Store) "prod_abc").code ≠ 200 ∧
    (get_batch_details (AuthUser.mk "u1" "user")
        (⟨[("prod_abc", completedSession)], []⟩ : Store) "prod_abc").code ≠ 403 :=
  c6_read_detail_always_crashes (AuthUser.mk "u1" "user")
    (⟨[("prod_abc", completedSession)], []⟩ : Store) "prod_abc" (by decide) (by decide)

/-- Whenever the API-key stage answers a request itself, the answer is
a 401. -/
theorem validate_api_key_code (key : String) (hdr : Option String) (r : Resp)
    (h : validate_api_key key hdr = some r) : r.code = 401 := by
  cases hdr with
  | none =>
    simp only [validate_api_key] at h
    injection h with h
    rw [← h]
  | some hh =>
    simp only [validate_api_key] at h
    split_ifs at h
    · injection h with h
      rw [← h]
    · injection h with h
      rw [← h]

/-- C7 counterexample: a device status update with no Authorization
header at all is accepted — answered 200 success — and mutates the
device collection; the device-status operation performs no credential
check, so it is not the case that every device-originated operation
rejects a request lacking the device API key. -/
theorem c7_status_no_credential_counterexample :
    (handle_device_status none
        (some (DeviceStatusBody.mk (some "dev1") [("battery", "90")])) [] 5).2.code = 200 ∧
    (handle_device_status none
        (some (DeviceStatusBody.mk (some "dev1") [("battery", "90")])) [] 5).2.status =
      "success" ∧
    (handle_device_status none
        (some (DeviceStatusBody.mk (some "dev1") [("battery", "90")])) [] 5).1.getDoc "dev1" =
      some (DeviceDoc.mk [("battery", "90")] (some 5)) := by
  refine ⟨by decide, by decide, by decide⟩

/-- C7 (amended): the weight endpoint rejects, with a 401 and before
any weight processing, every request on which the API-key stage fails
— in particular every request without an Authorization header — and
the session store is left untouched; the device-status endpoint,
whose decorator stack has no API-key stage, produces a result that
does not depend on the credential at all; neither endpoint consults a
user principal, so no ownership check applies. -/
theorem c7_device_credential_checks (key : String) (hdr : Option String)
    (body : Option IotWeightBody) (st : Store) (now : Nat)
    (sbody : Option DeviceStatusBody) (devices : DeviceColl) (hdr2 : Option String) :
    (∀ r, validate_api_key key hdr = some r →
      handle_iot_weight key hdr body st now = (st, r) ∧ r.code = 401) ∧
    (hdr = none → ∃ r, validate_api_key key hdr = some r ∧ r.code = 401) ∧
    handle_device_status hdr sbody devices now = handle_device_status hdr2 sbody devices now := by
  refine ⟨?_, ?_, rfl⟩
  · intro r hr
    constructor
    · unfold handle_iot_weight
      simp only [hr]
    · exact validate_api_key_code key hdr r hr
  · intro hnone
    subst hnone
    exact ⟨_, rfl, rfl⟩

/-- C7 witness: a weight request whose Authorization header is not a
bearer credential is answered with the 401 Authentication-required
response and the store is unchanged. -/
theorem c7_device_credential_checks_witness :
    validate_api_key "secret" (some "Token abc") =
      some { code := 401, status := "error", message := "Authentication required",
             details := none } ∧
    handle_iot_weight "secret" (some "Token abc")
        (some (IotWeightBody.mk (some "dev1") (some 5) (some "prod_abc")))
        (⟨[("prod_abc", freshProductSession)], []⟩ : Store) 2 =
      ((⟨[("prod_abc", freshProductSession)], []⟩ : Store),
       { code := 401, status := "error", message := "Authentication required",
         details := none }) :=
  ⟨by decide,
   ((c7_device_credential_checks "secret" (some "Token abc")
      (some (IotWeightBody.mk (some "dev1") (some 5) (some "prod_abc")))
      (⟨[("prod_abc", freshProductSession)], []⟩ : Store) 2 none [] none).1
      { code := 401, status := "error", message := "Authentication required", details := none }
      (by decide)).1⟩

/-- C8 counterexample: an initiate call with session_type rompes and
nothing else — no produce-variety discriminator exists anywhere in the
input the function reads — succeeds and creates the session; the
claimed InvalidArgument failure for a missing sub-type discriminator
does not exist in the code. -/
theorem c8_rompes_no_discriminator_counterexample :
    initiate_weighing_session Store.empty (some "u1") (some "rompes") "r1" 0 =
      .ok ((⟨[], [("rompes_r1",
        { user_id := some "u1", session_type := "rompes", status := "in_progress",
          created_at := 0, completed_at := none, total_weight := 0,
          vegetable_type := none, confidence := none, image_url := none,
          weights := [] })]⟩ : Store),
        { status := "initiated", session_id := "rompes_r1", session_type := "rompes",
          message := "Rompes weighing session started" }) := by
  rfl

/-- C8 (amended): initiate_weighing_session fails (ValueError) exactly
when session_type is neither product nor rompes, and then creates
nothing; for session_type rompes it always succeeds and creates the
in-progress session — the function reads only user_id and
session_type from its input, so no sub-type discriminator is required
or checked. -/
theorem c8_initiate_type_validation (st : Store) (u : Option String) (t : Option String)
    (f : String) (n : Nat) :
    (t ≠ some "product" → t ≠ some "rompes" →
      initiate_weighing_session st u t f n =
        .error "session_type must be either product or rompes") ∧
    (t = some "rompes" →
      initiate_weighing_session st u t f n =
        .ok ({ st with
                rompes_batches := st.rompes_batches.setDoc ("rompes_" ++ f)
                  { user_id := u, session_type := "rompes", status := "in_progress",
                    created_at := n, completed_at := none, total_weight := 0,
                    vegetable_type := none, confidence := none, image_url := none,
                    weights := [] } },
          { status := "initiated", session_id := "rompes_" ++ f, session_type := "rompes",
            message := "Rompes weighing session started" })) := by
  constructor
  · intro h1 h2
    unfold initiate_weighing_session
    simp [h1, h2]
  · intro h2
    unfold initiate_weighing_session
    have h1 : t ≠ some "product" := by
      rw [h2]
      simp
    simp [h1, h2]

/-- C8 witness: the amended theorem at a session_type of kangkung
(rejected, nothing created) and at rompes (created with no
discriminator consulted). -/
theorem c8_initiate_type_validation_witness :
    initiate_weighing_session Store.empty (some "u1") (some "kangkung") "r2" 0 =
      .error "session_type must be either product or rompes" ∧
    initiate_weighing_session Store.empty (some "u1") (some "rompes") "r2" 0 =
      .ok ({ Store.empty with
              rompes_batches := Store.empty.rompes_batches.setDoc ("rompes_" ++ "r2")
                { user_id := some "u1", session_type := "rompes", status := "in_progress",
                  created_at := 0, completed_at := none, total_weight := 0,
                  vegetable_type := none, confidence := none, image_url := none,
                  weights := [] } },
        { status := "initiated", session_id := "rompes_" ++ "r2", session_type := "rompes",
          message := "Rompes weighing session started" }) :=
  ⟨(c8_initiate_type_validation Store.empty (some "u1") (some "kangkung") "r2" 0).1
      (by decide) (by decide),
   (c8_initiate_type_validation Store.empty (some "u1") (some "rompes") "r2" 0).2 rfl⟩

/-- C9 (confirmed): when the classifier reports no detection,
identify_vegetable deletes the stored image, leaves the store — and so
any referenced session — untouched, and returns the No-object-detected
rejection; when the best detection carries a recognized label and the
session reference resolves to an existing product-partition session,
the call returns the accepted label and confidence and overwrites the
session's vegetable_type, confidence and image_url with this result,
whatever those fields held before. -/
theorem c9_identify_outcomes (st : Store) (imgs : List String) (url fn : String)
    (ds : List Detection) (bid : String) (sess : Session) (now : Nat)
    (himg : imgs.contains fn = true) :
    (ds = [] → ∀ b : Option String,
      identify_vegetable st imgs url fn ds b now =
        (st, imgs.erase fn, .rejected "No object detected")) ∧
    (∀ d rest, ds = d :: rest →
      ((bestDetection d rest).vegetable_type = "kale" ∨
        (bestDetection d rest).vegetable_type = "bayam merah") →
      st.vegetable_batches.getDoc bid = some sess →
      identify_vegetable st imgs url fn ds (some bid) now =
        ({ st with
            vegetable_batches := st.vegetable_batches.setDoc bid
              { sess with
                vegetable_type := some (bestDetection d rest).vegetable_type,
                confidence := some (bestDetection d rest).confidence,
                image_url := some url } },
         imgs,
         .detection (bestDetection d rest).vegetable_type
           (bestDetection d rest).confidence url now)) := by
  constructor
  · intro hds b
    subst hds
    unfold identify_vegetable delete_image
    simp only [himg, if_pos]
  · intro d rest hds hrec hget
    subst hds
    unfold identify_vegetable
    simp only [hget]
    rw [if_pos hrec]

/-- C9 witness: the theorem applied twice at concrete inputs — a call
with no detections deletes the stored image img3 and leaves the
completed session untouched, and a bayam-merah detection of confidence
75 overwrites the previously set kale identification of the same
session. -/
theorem c9_identify_outcomes_witness :
    identify_vegetable (⟨[("prod_abc", completedSession)], []⟩ : Store)
        ["img3"] "url3" "img3" [] (some "prod_abc") 4 =
      ((⟨[("prod_abc", completedSession)], []⟩ : Store), List.erase ["img3"] "img3",
       .rejected "No object detected") ∧
    identify_vegetable (⟨[("prod_abc", completedSession)], []⟩ : Store)
        ["img3"] "url3" "img3" [Detection.mk "bayam merah" 75] (some "prod_abc") 4 =
      ({ (⟨[("prod_abc", completedSession)], []⟩ : Store) with
          vegetable_batches :=
            (⟨[("prod_abc", completedSession)], []⟩ : Store).vegetable_batches.setDoc "prod_abc"
              { completedSession with
                vegetable_type :=
                  some (bestDetection (Detection.mk "bayam merah" 75) []).vegetable_type,
                confidence := some (bestDetection (Detection.mk "bayam merah" 75) []).confidence,
                image_url := some "url3" } },
       ["img3"],
       .detection (bestDetection (Detection.mk "bayam merah" 75) []).vegetable_type
         (bestDetection (Detection.mk "bayam merah" 75) []).confidence "url3" 4) :=
  ⟨(c9_identify_outcomes (⟨[("prod_abc", completedSession)], []⟩ : Store)
      ["img3"] "url3" "img3" [] "prod_abc" completedSession 4 (by decide)).1 rfl
      (some "prod_abc"),
   (c9_identify_outcomes (⟨[("prod_abc", completedSession)], []⟩ : Store)
      ["img3"] "url3" "img3" [Detection.mk "bayam merah" 75] "prod_abc" completedSession 4
      (by decide)).2 (Detection.mk "bayam merah" 75) [] rfl (by decide) (by decide)⟩

/-- C10 counterexample: two requests failing with different internal
exceptions produce different caller-visible payloads, and the payload
carries the internal diagnostic string in its details field — the
response is not a detail-free generic error. -/
theorem c10_error_detail_leak_counterexample :
    handle_api_exception (.error "ZeroDivisionError: division by zero") ≠
      handle_api_exception (.error "KeyError: user_id") ∧
    (handle_api_exception (.error "ZeroDivisionError: division by zero")).details =
      some "ZeroDivisionError: division by zero" := by
  refine ⟨by decide, by decide⟩

/-- C10 (amended): every unexpected failure is answered with status
code 500 and the constant generic message Internal server error, but
the response body also carries the internal exception's string in a
details field, so two runs failing with different internal exceptions
produce different caller-visible payloads. -/
theorem c10_internal_error_payload (e1 e2 : String) :
    handle_api_exception (.error e1) =
      { code := 500, status := "error", message := "Internal server error",
        details := some e1 } ∧
    (e1 ≠ e2 →
      handle_api_exception (.error e1) ≠ handle_api_exception (.error e2)) := by
  refine ⟨rfl, ?_⟩
  intro hne heq
  exact hne (Option.some_inj.mp (congrArg Resp.details heq))

/-- C10 witness: the amended theorem at two distinct exception
strings. -/
theorem c10_internal_error_payload_witness :
    handle_api_exception (.error "boom1") =
      { code := 500, status := "error", message := "Internal server error",
        details := some "boom1" } ∧
    handle_api_exception (.error "boom1") ≠ handle_api_exception (.error "boom2") :=
  ⟨(c10_internal_error_payload "boom1" "boom2").1,
   (c10_internal_error_payload "boom1" "boom2").2 (by decide)⟩

end Lokatani
